import Mathlib

/-!
Verification of the Vril backend orchestration service.

This file shallowly embeds the Python source of the repository
(`backend/app/...`) in Lean 4 and proves or refutes the frozen claims
about it.  Conventions used throughout:

* Python `str` values that the claims reason about character-wise are
  modelled as `List Char`; fixed labels travel as `String`.
* Python `float` arithmetic is modelled as exact rational arithmetic
  over `ℚ` (numeric literals are read as the decimal rationals they
  denote).
* fallible Python code (code that can raise) returns `Except`;
  the payload names the exception raised.
* network calls and the contents of external API responses are
  supplied by explicit oracle parameters; file writes are modelled as
  succeeding.
-/

set_option maxHeartbeats 1000000
set_option maxRecDepth 4000

namespace Vril

/-! ## `backend/app/services/panel_prompt_templates.py` -/

/-- Python `round` on an exact rational: round half to even
(CPython banker's rounding), as used by `int(round(width * 1000))`. -/
def pyRound (q : ℚ) : ℤ :=
  let f : ℤ := ⌊q⌋
  let r : ℚ := q - (f : ℚ)
  if r < 1/2 then f
  else if 1/2 < r then f + 1
  else if 2 ∣ f then f else f + 1

/-- A Python `fractions.Fraction`: integer numerator and (positive)
denominator. -/
structure Frac where
  num : ℤ
  den : ℤ
  deriving Repr, DecidableEq

/-- Rational value of a `Frac`. -/
def Frac.val (f : Frac) : ℚ := (f.num : ℚ) / (f.den : ℚ)

/-- `Fraction(n, d)`: raises `ZeroDivisionError` on `d = 0`, otherwise
reduces by `math.gcd` and normalises the sign onto the numerator
(CPython `Fraction.__new__`). -/
def mkFrac (n d : ℤ) : Except String Frac :=
  if d = 0 then .error "ZeroDivisionError: Fraction(n, 0)"
  else
    let g : ℤ := (Int.gcd n d : ℤ)
    let g : ℤ := if d < 0 then -g else g
    .ok ⟨Int.fdiv n g, Int.fdiv d g⟩

/-- One step of the continued-fraction loop of CPython
`Fraction.limit_denominator`; `fuel` bounds the Euclidean descent. -/
def limitDenLoop (maxDen : ℤ) :
    Nat → ℤ → ℤ → ℤ → ℤ → ℤ → ℤ → (ℤ × ℤ × ℤ × ℤ)
  | 0, p0, q0, p1, q1, _, _ => (p0, q0, p1, q1)
  | fuel+1, p0, q0, p1, q1, n, d =>
    if d ≤ 0 then (p0, q0, p1, q1)
    else
      let a := Int.fdiv n d
      let q2 := q0 + a * q1
      if maxDen < q2 then (p0, q0, p1, q1)
      else limitDenLoop maxDen fuel p1 q1 (p0 + a * p1) q2 d (n - a * d)

/-- CPython `Fraction.limit_denominator(max_denominator)`: closest
fraction with denominator at most `maxDen`.  The `Fraction`
constructions at the end are fallible, mirroring the Python calls. -/
def limit_denominator (f : Frac) (maxDen : ℤ) : Except String Frac :=
  if f.den ≤ maxDen then .ok f
  else
    let st := limitDenLoop maxDen (f.den.toNat + 1) 0 1 1 0 f.num f.den
    let p0 := st.1
    let q0 := st.2.1
    let p1 := st.2.2.1
    let q1 := st.2.2.2
    let k := Int.fdiv (maxDen - q0) q1
    match mkFrac (p0 + k * p1) (q0 + k * q1), mkFrac p1 q1 with
    | .ok bound1, .ok bound2 =>
        if |bound2.val - f.val| ≤ |bound1.val - f.val| then .ok bound2
        else .ok bound1
    | .error e, _ => .error e
    | _, .error e => .error e

/-- Format a pair of integers as the ratio string `"a:b"`. -/
def ratioStr (a b : ℤ) : String := toString a ++ ":" ++ toString b

/-- Keys of the `common_ratios` table, in dict insertion order. -/
def commonRatioKeys : List ℚ := [1, 133/100, 3/2, 8/5, 89/50, 2, 47/20]

/-- The `common_ratios` lookup table. -/
def commonRatioValue (k : ℚ) : String :=
  if k = 1 then "1:1"
  else if k = 133/100 then "4:3"
  else if k = 3/2 then "3:2"
  else if k = 8/5 then "16:10"
  else if k = 89/50 then "16:9"
  else if k = 2 then "2:1"
  else "21:9"

/-- Python `min(keys, key=lambda x: abs(x - r))`: first element
attaining the minimal distance wins. -/
def pyMinByDist (r : ℚ) : List ℚ → ℚ
  | [] => 0
  | x :: xs => xs.foldl (fun best y => if |y - r| < |best - r| then y else best) x

/-- `PanelPromptBuilder.calculate_aspect_ratio`, translated from
`panel_prompt_templates.py` lines 127-174.  The `Fraction`
construction can raise `ZeroDivisionError` (when `round(h*1000) = 0`),
hence the `Except`. -/
def calculate_aspect_ratio (width height : ℚ) : Except String String :=
  if width ≤ 0 ∨ height ≤ 0 then .ok "1:1"
  else
    let w_int := pyRound (width * 1000)
    let h_int := pyRound (height * 1000)
    match mkFrac w_int h_int with
    | .error e => .error e
    | .ok fraction =>
      if fraction.den ≤ 100 then .ok (ratioStr fraction.num fraction.den)
      else
        let ratio_value := width / height
        let closest := pyMinByDist ratio_value commonRatioKeys
        if |closest - ratio_value| < 1/10 then .ok (commonRatioValue closest)
        else
          match limit_denominator fraction 20 with
          | .ok fl => .ok (ratioStr fl.num fl.den)
          | .error e => .error e

/-! ## Spec-side rendition of the aspect-ratio description (claim C3)

The claim describes the result as "the fraction
`round(w*1000)/round(h*1000)` in lowest terms" — rendered here through
Lean's normalised `ℚ` rather than through the `Frac` reduction above —
falling back to the nearest table entry within `0.1`, and otherwise to
the same fraction limited to denominator at most `20`. -/

/-- Aspect-ratio computation as the specification words it. -/
def aspectRatioSpec (width height : ℚ) : String :=
  let a := pyRound (width * 1000)
  let b := pyRound (height * 1000)
  let q : ℚ := (a : ℚ) / (b : ℚ)
  if (q.den : ℤ) ≤ 100 then ratioStr q.num (q.den : ℤ)
  else
    let r := width / height
    let closest := pyMinByDist r commonRatioKeys
    if |closest - r| < 1/10 then commonRatioValue closest
    else
      match limit_denominator ⟨q.num, (q.den : ℤ)⟩ 20 with
      | .ok fl => ratioStr fl.num fl.den
      | .error _ => "unreachable"

/-! ## Text helpers shared by the prompt-handling code

Python `str` values handled character-wise are modelled as
`List Char`; `str.strip`, `str.lower` and the `in` operators are
translated below (ASCII behaviour; all text the code compares against
is ASCII). -/

/-- Python `str.isspace` for the characters `str.strip` removes. -/
def pyIsSpace (c : Char) : Bool :=
  c = ' ' || c = '\t' || c = '\n' || c = '\r' || c.toNat = 11 || c.toNat = 12

/-- Python `str.strip()`: drop leading and trailing whitespace. -/
def pyStrip (l : List Char) : List Char :=
  ((l.dropWhile pyIsSpace).reverse.dropWhile pyIsSpace).reverse

/-- Python `str.lower()` (ASCII). -/
def pyLower (l : List Char) : List Char := l.map Char.toLower

/-- Python `needle in haystack` on strings: substring containment. -/
def containsSub (needle : List Char) : List Char → Bool
  | [] => needle.isEmpty
  | c :: rest => needle.isPrefixOf (c :: rest) || containsSub needle rest

/-! ## `PanelPromptBuilder.validate_user_prompt`
(`panel_prompt_templates.py` lines 176-205) -/

/-- The `vague_prompts` blocklist. -/
def vaguePrompts : List (List Char) :=
  ["logo".toList, "design".toList, "texture".toList, "pattern".toList,
    "cool".toList, "nice".toList, "good".toList]

/-- Error message for prompts under 3 characters. -/
def promptTooShortMsg : String :=
  "Prompt is too short. Please provide more detail about what you want."

/-- Error message for prompts over 2000 characters. -/
def promptTooLongMsg : String :=
  "Prompt is too long. Please keep it under 2000 characters."

/-- Error message for blocklisted vague prompts (interpolates the
stripped prompt). -/
def vaguePromptMsg (prompt : List Char) : String :=
  "Prompt \x27" ++ prompt.asString ++
    "\x27 is too vague. Please be more specific about:\n- What style or theme you want\n- What colors or patterns to use\n- Any specific elements to include\nExample: \x27blue geometric pattern with white lines\x27 or \x27vintage cardboard texture\x27"

/-- `validate_user_prompt`: returns `(is_valid, error_message)`.  Note
that the source strips the prompt before every check and lowercases it
before the blocklist comparison. -/
def validate_user_prompt (promptArg : List Char) : Bool × Option String :=
  let prompt := pyStrip promptArg
  if prompt.length < 3 then (false, some promptTooShortMsg)
  else if 2000 < prompt.length then (false, some promptTooLongMsg)
  else if pyLower prompt ∈ vaguePrompts then (false, some (vaguePromptMsg prompt))
  else (true, none)

/-! ## `backend/app/integrations/gemini.py` -/

/-- Exceptions raised by the image-generation client. -/
inductive PyException where
  | geminiError (message : String)
  | valueError (message : String)
  deriving Repr, DecidableEq

/-- Outcome of one `_generate_single_image` network call, supplied as
an oracle: the call may raise, return `None`, or return an encoded
image. -/
inductive GenOutcome where
  | raises (message : String)
  | noImage
  | image (data : String)
  deriving Repr, DecidableEq

/-- The fixed `angles` list of `_generate_single_image`
(`gemini.py` lines 146-150). -/
def camAngles : List (List Char) :=
  ["front view at eye level, perfectly centered".toList,
    "45-degree angle from upper right, showing top and right side".toList,
    "side profile view from the left at eye level".toList]

/-- `angles[angle_index] if angle_index < len(angles) else "alternate angle"`. -/
def angleDescription (angle_index : Nat) : List Char :=
  if h : angle_index < camAngles.length then camAngles.get ⟨angle_index, h⟩
  else "alternate angle".toList

/-- The `enhanced_prompt` built by `_generate_single_image`
(`gemini.py` lines 155-178); the branch depends on whether reference
images were passed. -/
def enhancedPrompt (prompt : List Char) (hasReferenceImages : Bool)
    (angle_index : Nat) : List Char :=
  let angle_description := angleDescription angle_index
  if hasReferenceImages then
    "Create a professional product photograph of the exact same product shown in the reference image, photographed from a ".toList
      ++ angle_description ++ ". ".toList ++ prompt ++ "\n\n".toList
      ++ "Match the reference image precisely in terms of design, colors, materials, and all details. Photograph the product on a clean white studio background with professional lighting that creates soft shadows. Ensure sharp focus throughout with well-defined edges. Center the product in the frame and fill the frame while keeping the entire product visible - no parts should be cropped or cut off. Avoid any text, watermarks, or distracting elements.".toList
  else
    "Create a professional studio product photograph of ".toList ++ prompt
      ++ ", shot from a ".toList ++ angle_description
      ++ ". Photograph the product on a pure white background with professional studio lighting that creates soft, subtle shadows. Use sharp focus to capture clear, well-defined edges. Center the product in the frame and fill the frame while ensuring the entire product is visible - nothing should be cropped or cut off. The design should be consistent and suitable for viewing from multiple camera angles. Avoid any text overlays, watermarks, or distracting elements.".toList

/-- The `for i in range(image_count)` loop of
`generate_product_images_sync`: each iteration either appends the
generated image to `valid_images`, skips a `None` result, or swallows
the raised exception (logged and skipped).  The per-index call outcome
comes from the `outcome` oracle; the choice of reference images fed to
`_generate_single_image` (none for the first `create` image, the first
valid image afterwards, the caller's references in `edit` flow) only
affects that hidden call. -/
def collectValidImages (outcome : Nat → GenOutcome) (image_count : Nat) : List String :=
  (List.range image_count).foldl
    (fun valid_images i =>
      match outcome i with
      | .image s => valid_images ++ [s]
      | _ => valid_images) []

/-- `GeminiImageService.generate_product_images_sync`
(`gemini.py` lines 47-108): fails fast when the client is
unconfigured, rejects unknown workflows, and otherwise returns the
images that individually succeeded. -/
def generate_product_images_sync (clientConfigured : Bool)
    (outcome : Nat → GenOutcome) (workflow : String) (image_count : Nat) :
    Except PyException (List String) :=
  if !clientConfigured then
    .error (.geminiError "Gemini client not initialized for product images")
  else if workflow = "create" then .ok (collectValidImages outcome image_count)
  else if workflow = "edit" then .ok (collectValidImages outcome image_count)
  else
    .error (.valueError
      ("Unknown workflow: " ++ workflow ++ ". Expected \x27create\x27 or \x27edit\x27"))

/-! ## `backend/app/services/panel_generation.py` -/

/-- A Python `\w` word character (ASCII). -/
def wordChar (c : Char) : Bool := c.isAlphanum || c = '_'

/-- The color alternatives of the regular expression
`\b(black|white|red|blue|green|yellow|orange|purple|pink|gray|grey|brown)\b`,
in source order. -/
def colorWords : List (List Char) :=
  ["black".toList, "white".toList, "red".toList, "blue".toList, "green".toList,
    "yellow".toList, "orange".toList, "purple".toList, "pink".toList,
    "gray".toList, "grey".toList, "brown".toList]

/-- The `is_simple_color` keyword list (substring containment, no word
boundaries), in source order. -/
def simpleColorKeywords : List (List Char) :=
  colorWords ++ ["paint it".toList, "make it".toList, "color it".toList,
    "turn it".toList, "solid".toList, "plain".toList]

/-- Does some color word match at the head of `rest`, with Python word
boundaries on both sides (`prev` is the character before `rest`)? -/
def matchWordAt (prev : Option Char) (rest : List Char) (w : List Char) : Bool :=
  w.isPrefixOf rest &&
    (match prev with
      | none => true
      | some c => !wordChar c) &&
    (match rest.drop w.length with
      | [] => true
      | c :: _ => !wordChar c)

/-- `re.search` for the color alternation: leftmost match position
wins and, at a position, the first alternative listed (no alternative
is a prefix of another, so this matches Python's behaviour). -/
def findColorWord : Option Char → List Char → Option (List Char)
  | _, [] => none
  | prev, c :: rest =>
    match colorWords.find? (fun w => matchWordAt prev (c :: rest) w) with
    | some w => some w
    | none => findColorWord (some c) rest

/-- `extracted_color`: the color word found in the lowercased prompt,
if any. -/
def extractColor (l : List Char) : Option (List Char) := findColorWord none l

/-- `is_simple_color`: some keyword occurs as a substring. -/
def isSimpleColor (l : List Char) : Bool :=
  simpleColorKeywords.any (fun k => containsSub k l)

/-- `_get_panel_context` (`panel_generation.py` lines 153-171). -/
def getPanelContext (panel_id package_type : List Char) : List Char :=
  if package_type = "box".toList then
    if panel_id = "front".toList then "front face (primary visible panel)".toList
    else if panel_id = "back".toList then "back face (opposite side)".toList
    else if panel_id = "left".toList then "left side panel".toList
    else if panel_id = "right".toList then "right side panel".toList
    else if panel_id = "top".toList then "top face (lid/opening area)".toList
    else if panel_id = "bottom".toList then "bottom face (base)".toList
    else panel_id
  else
    if panel_id = "body".toList then "cylindrical body wrap (curved surface)".toList
    else if panel_id = "top".toList then "top circular cap".toList
    else if panel_id = "bottom".toList then "bottom circular base".toList
    else panel_id

/-- `f"{width}mm × {height}mm"`; the dimension entries are modelled as
optional integers (`panel_dimensions.get("width", 0)`). -/
def dimensionsText (width height : Option Int) : List Char :=
  (toString (width.getD 0)).toList ++ "mm × ".toList ++
    (toString (height.getD 0)).toList ++ "mm".toList

/-- The explicit solid-color prompt (first branch of
`_build_panel_prompt`). -/
def solidColorPrompt (extracted_color panel_context dimensions_text : List Char) :
    List Char :=
  "Generate a flat, solid ".toList ++ extracted_color ++
    " color texture for a packaging panel. This is the ".toList ++ panel_context ++
    " panel with dimensions ".toList ++ dimensions_text ++
    ". \n\nCRITICAL REQUIREMENTS:\n- The entire surface must be exactly ".toList ++
    extracted_color ++
    " color, nothing else\n- No borders, no edges, no frames, no outlines\n- No gradients, no patterns, no designs, no shadows\n- The color must extend edge-to-edge, covering 100% of the ".toList ++
    dimensions_text ++
    " area\n- Every single pixel must be the exact same ".toList ++ extracted_color ++
    " color\n- This is a flat 2D texture, not a 3D object or photograph\n- No lighting effects, no depth, no perspective\n- The texture must be completely uniform and seamless\n- Think of it like a solid color swatch or paint sample - pure ".toList ++
    extracted_color ++ " from edge to edge".toList

/-- The generic solid-color prompt (second branch: keyword hit but no
extractable color). -/
def genericSolidPrompt (panel_context dimensions_text user_prompt : List Char) :
    List Char :=
  "Generate a flat, solid color texture for a packaging panel. This is the ".toList ++
    panel_context ++ " panel with dimensions ".toList ++ dimensions_text ++
    ". The user wants: ".toList ++ user_prompt ++
    "\n\nCRITICAL REQUIREMENTS:\n- The entire surface must be a single, uniform color covering 100% of the area\n- No borders, no edges, no frames, no outlines\n- No gradients, no patterns, no designs, no shadows\n- The color must extend edge-to-edge, covering the full ".toList ++
    dimensions_text ++
    " area\n- This is a flat 2D texture, not a 3D object or photograph\n- No lighting effects, no depth, no perspective\n- The texture must be completely uniform and seamless".toList

/-- The detailed creative-design prompt (final branch). -/
def creativeDesignPrompt (package_type panel_context dimensions_text user_prompt : List Char) :
    List Char :=
  "Create a professional packaging design texture for a ".toList ++ package_type ++
    " package panel. This is the ".toList ++ panel_context ++
    " panel with dimensions ".toList ++ dimensions_text ++ ". ".toList ++ user_prompt ++
    "\n\nThe design should be suitable for printing on packaging material. Create a flat, seamless design that covers 100% of the ".toList ++
    dimensions_text ++
    " surface area. Ensure the design is high-quality, print-ready, and visually appealing. The design must fill the entire panel area without any gaps, borders, or empty spaces. Avoid any 3D effects or perspective - this is a flat texture that will be applied to a surface.".toList

/-- `PanelGenerationService._build_panel_prompt`
(`panel_generation.py` lines 75-151). -/
def build_panel_prompt (panel_id user_prompt package_type : List Char)
    (width height : Option Int) : List Char :=
  let panel_context := getPanelContext panel_id package_type
  let dimensions_text := dimensionsText width height
  let user_lower := pyLower user_prompt
  let extracted_color := extractColor user_lower
  let is_simple_color := isSimpleColor user_lower
  if is_simple_color then
    match extracted_color with
    | some c => solidColorPrompt c panel_context dimensions_text
    | none => genericSolidPrompt panel_context dimensions_text user_prompt
  else creativeDesignPrompt package_type panel_context dimensions_text user_prompt

/-! ## Product state model

Modelled from the spec: `app/models/product_state.py` is not under
`src/`; the record shapes below follow spec section 3 ("Data model")
and the fields the router, pipeline and mock pipeline read and write.
Timestamps are abstract ticks (`Nat`). -/

/-- Mesh-generation output: `model_file` URL plus auxiliary preview
images.  Modelled from the spec: "mesh-generation output (`model_file`
URL plus auxiliary preview images)". -/
structure TrellisArtifacts where
  model_file : String
  no_background_images : List String
  deriving Repr, DecidableEq

/-- One immutable historical snapshot.  Modelled from the spec:
"ProductIteration — immutable historical snapshot: id, type
(`create`|`edit`), prompt text, image list, mesh output, creation
time, duration, free-text note". -/
structure ProductIteration where
  id : String
  type : String
  prompt : String
  images : List String
  trellis_output : Option TrellisArtifacts
  created_at : Nat
  duration_seconds : Nat
  note : String
  deriving Repr, DecidableEq

/-- The session-scoped product aggregate.  Modelled from the spec:
"ProductState — session-scoped aggregate: prompt, current mode, status
label, in-progress flag, image list, mesh-generation output, an
ordered list of ProductIteration snapshots, last-error text, ...". -/
structure ProductState where
  prompt : String
  latest_instruction : String
  mode : String
  status : String
  message : String
  in_progress : Bool
  generation_started_at : Option Nat
  image_count : Nat
  images : List String
  trellis_output : Option TrellisArtifacts
  iterations : List ProductIteration
  last_error : Option String
  deriving Repr, DecidableEq

/-- The lightweight polling projection.  Modelled from the spec:
"ProductStatus — status label, integer progress (0-100), message,
optional mesh file URL, optional preview image". -/
structure ProductStatus where
  status : String
  progress : Nat
  message : String
  model_file : Option String
  preview_image : Option String
  deriving Repr, DecidableEq

/-! ## `backend/app/endpoints/product/router.py` -/

/-- `_has_active_tasks`: the tracked background-task set is carried as
the list of each task's `done()` flag. -/
def hasActiveTasks (tasks : List Bool) : Bool := tasks.any (fun done => !done)

/-- `_auto_recover_if_needed` (`router.py` lines 51-76): returns
whether recovery happened together with the (possibly updated) state;
on recovery the state and an idle status projection are saved. -/
def autoRecoverIfNeeded (state : ProductState) (tasks : List Bool) :
    Bool × ProductState :=
  if !state.in_progress then (false, state)
  else if hasActiveTasks tasks then (false, state)
  else
    (true,
      { state with
        in_progress := false
        status := "idle"
        message := "Recovered from interrupted generation"
        generation_started_at := none })

/-- The idle status projection written by `_auto_recover_if_needed`. -/
def recoveredStatusPayload : ProductStatus :=
  ⟨"idle", 0, "Recovered from interrupted generation", none, none⟩

/-- `_ensure_not_busy` (`router.py` lines 79-83): raises HTTP 409 when
a run is in progress and cannot be auto-recovered.  On success it
returns the (possibly recovered) state and whether recovery wrote it. -/
def ensure_not_busy (state : ProductState) (tasks : List Bool) :
    Except (Nat × String) (ProductState × Bool) :=
  if state.in_progress then
    match autoRecoverIfNeeded state tasks with
    | (true, st) => .ok (st, true)
    | (false, _) => .error (409, "Generation already running")
  else .ok (state, false)

/-- An endpoint's HTTP outcome. -/
inductive RouterResp where
  | ok (payload : ProductStatus)
  | httpError (code : Nat) (detail : String)
  deriving Repr, DecidableEq

/-- The world a request handler sees: persisted state, the `done()`
flags of the tracked background tasks, the demo-mock switch and the
current time. -/
structure RouterWorld where
  state : ProductState
  tasks : List Bool
  demoMock : Bool
  now : Nat
  deriving Repr, DecidableEq

/-- A handler's result: response, final world (a spawned background
task is tracked as a new not-done flag), and the traces of
`save_product_state` / `save_product_status` calls in order. -/
structure EndpointResult where
  resp : RouterResp
  world : RouterWorld
  stateSaves : List ProductState
  statusSaves : List ProductStatus
  deriving Repr, DecidableEq

/-- `start_create` (`router.py` lines 92-125), up to the point where
the background pipeline task is spawned. -/
def start_create (w : RouterWorld) (promptArg : String) (imageCount : Nat) :
    EndpointResult :=
  match ensure_not_busy w.state w.tasks with
  | .error (code, detail) => ⟨.httpError code detail, w, [], []⟩
  | .ok (st, recovered) =>
    let recSaves := if recovered then [st] else []
    let recStatus := if recovered then [recoveredStatusPayload] else []
    let st2 := { st with
      prompt := promptArg
      latest_instruction := promptArg
      mode := "create"
      status := "pending"
      message := "Preparing product generation"
      in_progress := true
      generation_started_at := some w.now
      image_count := imageCount
      images := []
      trellis_output := none
      iterations := []
      last_error := none }
    let payload : ProductStatus := ⟨"pending", 0, "Preparing product generation", none, none⟩
    ⟨.ok payload, { w with state := st2, tasks := w.tasks ++ [false] },
      recSaves ++ [st2], recStatus ++ [payload]⟩

/-- `start_edit` (`router.py` lines 128-158): in non-mock mode an
empty base prompt or empty image list is rejected with HTTP 400
(after any auto-recovery has already been persisted). -/
def start_edit (w : RouterWorld) (promptArg : String) : EndpointResult :=
  match ensure_not_busy w.state w.tasks with
  | .error (code, detail) => ⟨.httpError code detail, w, [], []⟩
  | .ok (st, recovered) =>
    let recSaves := if recovered then [st] else []
    let recStatus := if recovered then [recoveredStatusPayload] else []
    if !w.demoMock && (st.prompt = "" || st.images = []) then
      ⟨.httpError 400 "No base product available to edit",
        { w with state := st }, recSaves, recStatus⟩
    else
      let st2 := { st with
        latest_instruction := promptArg
        mode := "edit"
        status := "pending"
        message := "Preparing edit request"
        in_progress := true
        generation_started_at := some w.now }
      let payload : ProductStatus := ⟨"pending", 0, "Preparing edit request", none, none⟩
      ⟨.ok payload, { w with state := st2, tasks := w.tasks ++ [false] },
        recSaves ++ [st2], recStatus ++ [payload]⟩

/-- `start_trellis_only` (`router.py` lines 168-227). -/
def start_trellis_only (w : RouterWorld) (promptArg : String)
    (imagesArg : List String) (modeArg : String) : EndpointResult :=
  match ensure_not_busy w.state w.tasks with
  | .error (code, detail) => ⟨.httpError code detail, w, [], []⟩
  | .ok (st, recovered) =>
    let recSaves := if recovered then [st] else []
    let recStatus := if recovered then [recoveredStatusPayload] else []
    let st1 :=
      if modeArg = "create" then { st with prompt := promptArg, iterations := [] }
      else { st with latest_instruction := promptArg }
    let st2 := { st1 with
      mode := modeArg
      status := "pending"
      message := "Preparing 3D generation from pre-generated images"
      in_progress := true
      generation_started_at := some w.now
      images := imagesArg
      last_error := none }
    let payload : ProductStatus :=
      ⟨"pending", 0, "Preparing 3D generation from pre-generated images", none, none⟩
    ⟨.ok payload, { w with state := st2, tasks := w.tasks ++ [false] },
      recSaves ++ [st2], recStatus ++ [payload]⟩

/-- `rewind_product` (`router.py` lines 261-302): HTTP 409 while
running, HTTP 400 for an index outside `[0, len(iterations))`,
otherwise the truncated-and-restored state and the idle status
payload. -/
def rewind_product (state : ProductState) (iteration_index : Int) :
    Except (Nat × String) (ProductState × ProductStatus) :=
  if state.in_progress then
    .error (409, "Cannot rewind while generation is running")
  else if iteration_index < 0 ∨ (state.iterations.length : Int) ≤ iteration_index then
    .error (400, "Invalid iteration index")
  else
    match state.iterations[iteration_index.toNat]? with
    | none => .error (500, "unreachable: bounds were checked")
    | some target_iteration =>
      let st2 := { state with
        iterations := state.iterations.take (iteration_index.toNat + 1)
        images := target_iteration.images
        trellis_output := target_iteration.trellis_output
        latest_instruction := target_iteration.prompt
        prompt := if target_iteration.type = "create" then target_iteration.prompt
          else state.prompt
        mode := target_iteration.type
        status := "idle"
        message := "Rewound to previous version"
        in_progress := false
        last_error := none }
      let preview :=
        match target_iteration.trellis_output with
        | some t => t.no_background_images.head?
        | none => none
      let payload : ProductStatus :=
        ⟨"idle", 0, "Rewound to previous version",
          (target_iteration.trellis_output.map TrellisArtifacts.model_file), preview⟩
      .ok (st2, payload)

/-! ## `backend/app/services/demo_mock_pipeline.py` -/

/-- The `product_create` entry of the demo fixtures file.  A `none`
field models an absent JSON key (the source reads the entry with
`dict.get` and distinguishes a missing `preview_images` key, which
defaults, from a present empty list, which does not). -/
structure MockFixtureEntry where
  model_url : Option String
  preview_images : Option (List String)
  no_background_images : List String
  deriving Repr, DecidableEq

/-- `not create_data.get("model_url") or
create_data["model_url"].startswith("PASTE")`, negated: whether the
fixtures are usable. -/
def fixtureConfigured (e : MockFixtureEntry) : Bool :=
  match e.model_url with
  | none => false
  | some u => !(u = "") && !(("PASTE".toList).isPrefixOf u.toList)

/-- The sequence of `_update_status` payloads emitted by
`run_mock_create` (`demo_mock_pipeline.py` lines 54-134), paired with
the uncaught exception that kills the background task, if any: a
single error payload when the fixtures are unusable; otherwise the
fixed image/model phases, after which the final completion call
evaluates `create_data.get("preview_images", [None])[0]` — when the
`preview_images` key is present but the list is empty, `[][0]` raises
`IndexError` before the `complete` status is ever written. -/
def mockCreateStatusUpdates (fx : MockFixtureEntry) :
    List ProductStatus × Option String :=
  if !fixtureConfigured fx then
    ([⟨"error", 0, "Demo fixtures not configured", none, none⟩], none)
  else
    let phases : List ProductStatus :=
      [⟨"generating_images", 10, "Generating product images with AI...", none, none⟩,
        ⟨"generating_images", 25, "Creating multiple views...", none, none⟩,
        ⟨"generating_model", 45, "Generating 3D model with Trellis...", none, none⟩,
        ⟨"generating_model", 65, "Processing geometry and textures...", none, none⟩,
        ⟨"generating_model", 85, "Finalizing 3D asset...", none, none⟩]
    match fx.preview_images with
    | some [] => (phases, some "IndexError: list index out of range")
    | some (p :: _) =>
      (phases ++ [⟨"complete", 100, "3D asset generated", fx.model_url, some p⟩], none)
    | none =>
      (phases ++ [⟨"complete", 100, "3D asset generated", fx.model_url, none⟩], none)

/-- A full demo-mock create run as observed through the status
projection: the router's `pending` payload (written before the task is
spawned) followed by the mock pipeline's updates, together with the
exception that killed the task, if any.  The embedding contains no
network primitive: the updates are replayed from the fixed list
above. -/
def demoCreateRun (fx : MockFixtureEntry) : List ProductStatus × Option String :=
  ((⟨"pending", 0, "Preparing product generation", none, none⟩ : ProductStatus) ::
      (mockCreateStatusUpdates fx).1,
    (mockCreateStatusUpdates fx).2)

/-! ## `backend/app/services/file_export.py`, `_render_jpg` -/

/-- Outcome of `scene.save_image` (the pyglet-backed rasteriser),
supplied as an oracle: a PNG byte count (0 models an empty/None
result), an `ImportError` whose text may or may not mention pyglet, or
any other exception. -/
inductive SaveImageBehavior where
  | ok (numBytes : Nat)
  | importError (mentionsPyglet : Bool)
  | otherError
  deriving Repr, DecidableEq

/-- Environment of one `_render_jpg` call. -/
structure RenderEnv where
  geometryCount : Nat
  saveImage : SaveImageBehavior
  convertFails : Bool
  thumbnailFails : Bool
  deriving Repr, DecidableEq

/-- What `_render_jpg` wrote to the output path. -/
inductive RenderedArtifact where
  | rendered
  | thumbnail
  | placeholder (message : String)
  deriving Repr, DecidableEq

/-- Python exceptions flowing through `_render_jpg`. -/
inductive RenderError where
  | importError (mentionsPyglet : Bool)
  | other (message : String)
  deriving Repr, DecidableEq

/-- The inner `try` of `_render_jpg` (`file_export.py` lines 62-76):
`save_image`, the emptiness check, and the PNG→JPG conversion.
`ok none` means the data was empty and control falls through. -/
def renderInnerTry (env : RenderEnv) : Except RenderError (Option RenderedArtifact) :=
  match env.saveImage with
  | .importError p => .error (.importError p)
  | .otherError => .error (.other "save_image failed")
  | .ok n =>
    if 0 < n then
      if env.convertFails then .error (.other "image conversion failed")
      else .ok (some .rendered)
    else .ok none

/-- `_create_scene_thumbnail` as a fallible step (drawing/IO may
raise; its internal text drawing already swallows font errors). -/
def thumbnailStep (env : RenderEnv) : Except RenderError RenderedArtifact :=
  if env.thumbnailFails then .error (.other "thumbnail failed") else .ok .thumbnail

/-- Body of the outer `try` of `_render_jpg`: empty scenes short-cut
to a placeholder; a pyglet `ImportError` falls through to the 2D
thumbnail; other exceptions propagate. -/
def renderBody (env : RenderEnv) : Except RenderError RenderedArtifact :=
  if env.geometryCount = 0 then .ok (.placeholder "No geometry")
  else
    match renderInnerTry env with
    | .ok (some art) => .ok art
    | .ok none => thumbnailStep env
    | .error (.importError true) => thumbnailStep env
    | .error e => .error e

/-- `_render_jpg` (`file_export.py` lines 52-84): the outer
`except Exception` converts any failure into the `"Render failed"`
placeholder, so no exception escapes.  (Writing the placeholder image
itself is modelled as succeeding.) -/
def render_jpg (env : RenderEnv) : Except RenderError RenderedArtifact :=
  match renderBody env with
  | .ok art => .ok art
  | .error _ => .ok (.placeholder "Render failed")

end Vril

/-! ## Theorems -/

namespace Vril

/-- Python `Fraction(a, b)` for `0 ≤ a`, `0 < b` reduces exactly as the
normalised rational `a / b` does. -/
theorem mkFrac_eq_rat (a b : ℤ) (ha : 0 ≤ a) (hb : 0 < b) :
    mkFrac a b = .ok ⟨((a : ℚ) / (b : ℚ)).num, (((a : ℚ) / (b : ℚ)).den : ℤ)⟩ := by
  have hbne : b ≠ 0 := ne_of_gt hb
  have hane : ¬ b < 0 := not_lt.mpr (le_of_lt hb)
  rcases eq_or_lt_of_le ha with rfl | hapos
  · have hbq : ((0 : ℤ) : ℚ) / (b : ℚ) = 0 := by simp
    have habs : |b| = b := abs_of_pos hb
    have h2 : Int.fdiv b |b| = 1 := by
      rw [habs, Int.fdiv_eq_ediv _ (le_of_lt hb), Int.ediv_self hbne]
    simp [mkFrac, if_neg hbne, hane, hbq, Int.zero_fdiv, h2]
  · simp only [mkFrac, if_neg hbne, hane, if_false]
    have hgcd : 0 < Int.gcd a b := Int.gcd_pos_of_ne_zero_left b (ne_of_gt hapos)
    have hgpos : (0 : ℤ) < (Int.gcd a b : ℤ) := by exact_mod_cast hgcd
    set g : ℤ := (Int.gcd a b : ℤ) with hgdef
    have hgne : g ≠ 0 := ne_of_gt hgpos
    have hdva : g ∣ a := Int.gcd_dvd_left
    have hdvb : g ∣ b := Int.gcd_dvd_right
    have hfa : Int.fdiv a g = a / g := Int.fdiv_eq_ediv a (le_of_lt hgpos)
    have hfb : Int.fdiv b g = b / g := Int.fdiv_eq_ediv b (le_of_lt hgpos)
    have hbg : 0 < b / g := Int.ediv_pos_of_pos_of_dvd hb (le_of_lt hgpos) hdvb
    have hag : 0 ≤ a / g := Int.ediv_nonneg (le_of_lt hapos) (le_of_lt hgpos)
    have hcop : Int.gcd (a / g) (b / g) = 1 := Int.gcd_div_gcd_div_gcd hgcd
    -- the reduced pair is the num/den of the normalised rational
    have hq : (a : ℚ) / (b : ℚ) = Rat.divInt a b := (Rat.divInt_eq_div a b).symm
    have hsplit : Rat.divInt a b = Rat.divInt (a / g) (b / g) := by
      conv_lhs => rw [← Int.ediv_mul_cancel hdva, ← Int.ediv_mul_cancel hdvb]
      rw [mul_comm (a / g) g, mul_comm (b / g) g]
      exact Rat.divInt_mul_left hgne
    have hdnz : (b / g).toNat ≠ 0 := by omega
    have hcop' : (a / g).natAbs.Coprime (b / g).toNat := by
      have : (b / g).toNat = (b / g).natAbs := by omega
      rw [this]
      exact hcop
    have hmk : (Rat.mk' (a / g) ((b / g).toNat) hdnz hcop' : ℚ) = Rat.divInt a b := by
      rw [Rat.mk'_eq_divInt, hsplit, Int.toNat_of_nonneg (le_of_lt hbg)]
    have hnum : ((a : ℚ) / (b : ℚ)).num = a / g := by rw [hq, ← hmk]
    have hden : (((a : ℚ) / (b : ℚ)).den : ℤ) = b / g := by
      rw [hq, ← hmk]
      exact Int.toNat_of_nonneg (le_of_lt hbg)
    simp only [hfa, hfb, hnum, hden]

/-- A positive rational rounds (Python `round`) to a non-negative
integer. -/
theorem pyRound_nonneg (q : ℚ) (hq : 0 < q) : 0 ≤ pyRound q := by
  have h : (0 : ℤ) ≤ ⌊q⌋ := Int.floor_nonneg.mpr (le_of_lt hq)
  simp only [pyRound]
  split_ifs <;> omega

/-- Invariant of the `limit_denominator` continued-fraction loop: once
`q1 ≥ 1`, the convergent denominators stay within `[0, maxDen]` and
`q1` stays at least `1`. -/
theorem limitDenLoop_bounds (m : ℤ) (fl : Nat) :
    ∀ p0 q0 p1 q1 n d : ℤ,
    0 ≤ q0 → 1 ≤ q1 → q0 ≤ m → q1 ≤ m → 0 ≤ d → d ≤ n →
    0 ≤ (limitDenLoop m fl p0 q0 p1 q1 n d).2.1 ∧
    1 ≤ (limitDenLoop m fl p0 q0 p1 q1 n d).2.2.2 ∧
    (limitDenLoop m fl p0 q0 p1 q1 n d).2.1 ≤ m ∧
    (limitDenLoop m fl p0 q0 p1 q1 n d).2.2.2 ≤ m := by
  induction fl with
  | zero => intro p0 q0 p1 q1 n d h0 h1 h2 h3 _ _; exact ⟨h0, h1, h2, h3⟩
  | succ fl ih =>
    intro p0 q0 p1 q1 n d h0 h1 h2 h3 hd hdn
    by_cases hdz : d ≤ 0
    · simp only [limitDenLoop, if_pos hdz]
      exact ⟨h0, h1, h2, h3⟩
    · push_neg at hdz
      have hdpos : 0 < d := hdz
      have ha : 1 ≤ Int.fdiv n d := by
        rw [Int.fdiv_eq_ediv _ (le_of_lt hdpos)]
        rw [Int.le_ediv_iff_mul_le hdpos]
        omega
      by_cases hq2 : m < q0 + Int.fdiv n d * q1
      · simp only [limitDenLoop, if_neg (not_le.mpr hdz)]
        simp only [if_pos hq2]
        exact ⟨h0, h1, h2, h3⟩
      · simp only [limitDenLoop, if_neg (not_le.mpr hdz), if_neg hq2]
        push_neg at hq2
        have hq2ge : 1 ≤ q0 + Int.fdiv n d * q1 := by nlinarith
        have hmod0 : 0 ≤ n - Int.fdiv n d * d := by
          rw [Int.fdiv_eq_ediv _ (le_of_lt hdpos)]
          have := Int.emod_nonneg n (ne_of_gt hdpos)
          have heq := Int.ediv_add_emod n d
          nlinarith [heq, this]
        have hmodlt : n - Int.fdiv n d * d ≤ d := by
          rw [Int.fdiv_eq_ediv _ (le_of_lt hdpos)]
          have := Int.emod_lt_of_pos n hdpos
          have heq := Int.ediv_add_emod n d
          nlinarith [heq, this]
        exact ih p1 q1 (p0 + Int.fdiv n d * p1) (q0 + Int.fdiv n d * q1) d
          (n - Int.fdiv n d * d) (by omega) hq2ge h3 hq2 hmod0 hmodlt

/-- `Fraction(n, d)` with `1 ≤ d` succeeds and its denominator lies in
`[1, d]`. -/
theorem mkFrac_den_bounds (n d : ℤ) (hd : 1 ≤ d) :
    ∃ fr : Frac, mkFrac n d = .ok fr ∧ 1 ≤ fr.den ∧ fr.den ≤ d := by
  have hdne : d ≠ 0 := by omega
  have hgcd : 0 < Int.gcd n d := Int.gcd_pos_of_ne_zero_right n hdne
  have hgpos : (0 : ℤ) < (Int.gcd n d : ℤ) := by exact_mod_cast hgcd
  have hdvd : (Int.gcd n d : ℤ) ∣ d := Int.gcd_dvd_right
  have hneg : ¬ d < 0 := by omega
  refine ⟨⟨Int.fdiv n (Int.gcd n d : ℤ), Int.fdiv d (Int.gcd n d : ℤ)⟩, ?_, ?_, ?_⟩
  · simp only [mkFrac, if_neg hdne, hneg, if_false]
  · simp only
    rw [Int.fdiv_eq_ediv _ (le_of_lt hgpos)]
    have := Int.ediv_pos_of_pos_of_dvd (show (0 : ℤ) < d by omega)
      (le_of_lt hgpos) hdvd
    omega
  · simp only
    rw [Int.fdiv_eq_ediv _ (le_of_lt hgpos)]
    exact Int.ediv_le_self _ (by omega)

/-- `Fraction.limit_denominator(20)` on a fraction with denominator
above `20` succeeds with a denominator in `[1, 20]`. -/
theorem limit_denominator_ok (f : Frac) (hden : 20 < f.den) :
    ∃ g : Frac, limit_denominator f 20 = .ok g ∧ 1 ≤ g.den ∧ g.den ≤ 20 := by
  have hnle : ¬ f.den ≤ 20 := not_le.mpr hden
  have hdpos : (0 : ℤ) < f.den := by omega
  -- unfold the first loop iteration, which installs `q1 = 1`
  have hstep :
      limitDenLoop 20 (f.den.toNat + 1) 0 1 1 0 f.num f.den =
      limitDenLoop 20 f.den.toNat 1 0 (Int.fdiv f.num f.den) 1 f.den
        (f.num - Int.fdiv f.num f.den * f.den) := by
    have hng : ¬ f.den ≤ 0 := by omega
    simp only [limitDenLoop, if_neg hng, mul_zero, add_zero, mul_one, zero_add]
    rw [if_neg (by norm_num : ¬ (20 : ℤ) < 1)]
  have hmod0 : 0 ≤ f.num - Int.fdiv f.num f.den * f.den := by
    rw [Int.fdiv_eq_ediv _ (le_of_lt hdpos)]
    have := Int.emod_nonneg f.num (ne_of_gt hdpos)
    have heq := Int.ediv_add_emod f.num f.den
    nlinarith [heq, this]
  have hmodlt : f.num - Int.fdiv f.num f.den * f.den ≤ f.den := by
    rw [Int.fdiv_eq_ediv _ (le_of_lt hdpos)]
    have := Int.emod_lt_of_pos f.num hdpos
    have heq := Int.ediv_add_emod f.num f.den
    nlinarith [heq, this]
  have hinv := limitDenLoop_bounds 20 f.den.toNat
    1 0 (Int.fdiv f.num f.den) 1 f.den (f.num - Int.fdiv f.num f.den * f.den)
    le_rfl le_rfl (by omega) (by omega) hmod0 hmodlt
  set st := limitDenLoop 20 f.den.toNat 1 0 (Int.fdiv f.num f.den) 1 f.den
    (f.num - Int.fdiv f.num f.den * f.den) with hst
  obtain ⟨hq0nn, hq1ge, hq0le, hq1le⟩ := hinv
  -- bounds on the final mediant denominator
  have hq1pos : (0 : ℤ) < st.2.2.2 := by omega
  have hknn : 0 ≤ Int.fdiv (20 - st.2.1) st.2.2.2 := by
    rw [Int.fdiv_eq_ediv _ (le_of_lt hq1pos)]
    exact Int.ediv_nonneg (by omega) (by omega)
  have hkmul : Int.fdiv (20 - st.2.1) st.2.2.2 * st.2.2.2 ≤ 20 - st.2.1 := by
    rw [Int.fdiv_eq_ediv _ (le_of_lt hq1pos)]
    have heq := Int.ediv_add_emod (20 - st.2.1) st.2.2.2
    have := Int.emod_nonneg (20 - st.2.1) (ne_of_gt hq1pos)
    nlinarith [heq, this]
  have hden1pos : 1 ≤ st.2.1 + Int.fdiv (20 - st.2.1) st.2.2.2 * st.2.2.2 := by
    rcases lt_or_le st.2.1 1 with hq0z | hq0one
    · have hq00 : st.2.1 = 0 := by omega
      have hk1 : 1 ≤ Int.fdiv (20 - st.2.1) st.2.2.2 := by
        rw [hq00]
        rw [Int.fdiv_eq_ediv _ (le_of_lt hq1pos)]
        rw [Int.le_ediv_iff_mul_le hq1pos]
        omega
      nlinarith
    · nlinarith
  have hden1le : st.2.1 + Int.fdiv (20 - st.2.1) st.2.2.2 * st.2.2.2 ≤ 20 := by
    omega
  obtain ⟨fr1, hfr1, hfr1a, hfr1b⟩ :=
    mkFrac_den_bounds (st.1 + Int.fdiv (20 - st.2.1) st.2.2.2 * st.2.2.1)
      (st.2.1 + Int.fdiv (20 - st.2.1) st.2.2.2 * st.2.2.2) hden1pos
  obtain ⟨fr2, hfr2, hfr2a, hfr2b⟩ := mkFrac_den_bounds st.2.2.1 st.2.2.2 hq1ge
  simp only [limit_denominator, if_neg hnle, hstep, ← hst, hfr1, hfr2]
  by_cases hcmp : |fr2.val - f.val| ≤ |fr1.val - f.val|
  · exact ⟨fr2, by simp [hcmp], hfr2a, by omega⟩
  · exact ⟨fr1, by simp [hcmp], hfr1a, by omega⟩

/-- The fold backing `pyMinByDist` yields either the seed or a list
element, never increases the distance to `r`, and is at most the
distance of every list element. -/
theorem foldlMinDist_spec (r : ℚ) (xs : List ℚ) : ∀ b : ℚ,
    (xs.foldl (fun best y => if |y - r| < |best - r| then y else best) b = b ∨
      xs.foldl (fun best y => if |y - r| < |best - r| then y else best) b ∈ xs) ∧
    |xs.foldl (fun best y => if |y - r| < |best - r| then y else best) b - r| ≤ |b - r| ∧
    ∀ k ∈ xs, |xs.foldl (fun best y => if |y - r| < |best - r| then y else best) b - r| ≤ |k - r| := by
  induction xs with
  | nil => intro b; simp
  | cons x xs ih =>
    intro b
    simp only [List.foldl_cons]
    by_cases hx : |x - r| < |b - r|
    · rw [if_pos hx]
      obtain ⟨hmem, hle, hall⟩ := ih x
      refine ⟨?_, le_trans hle (le_of_lt hx), ?_⟩
      · rcases hmem with he | hm
        · right; rw [he]; exact List.mem_cons_self x xs
        · right; exact List.mem_cons_of_mem x hm
      · intro k hk
        rcases List.mem_cons.mp hk with rfl | hk'
        · exact hle
        · exact hall k hk'
    · rw [if_neg hx]
      obtain ⟨hmem, hle, hall⟩ := ih b
      refine ⟨?_, hle, ?_⟩
      · rcases hmem with he | hm
        · left; exact he
        · right; exact List.mem_cons_of_mem x hm
      · intro k hk
        rcases List.mem_cons.mp hk with rfl | hk'
        · exact le_trans hle (not_lt.mp hx)
        · exact hall k hk'

/-- `min(common_ratios, key=lambda x: abs(x - r))` really is a nearest
element of the table. -/
theorem pyMinByDist_nearest (r : ℚ) :
    pyMinByDist r commonRatioKeys ∈ commonRatioKeys ∧
    ∀ k ∈ commonRatioKeys, |pyMinByDist r commonRatioKeys - r| ≤ |k - r| := by
  have h := foldlMinDist_spec r [133/100, 3/2, 8/5, 89/50, 2, 47/20] 1
  obtain ⟨hmem, hle, hall⟩ := h
  constructor
  · rcases hmem with he | hm
    · simp only [commonRatioKeys, pyMinByDist]
      rw [he]; exact List.mem_cons_self _ _
    · simp only [commonRatioKeys, pyMinByDist]
      exact List.mem_cons_of_mem _ hm
  · intro k hk
    simp only [commonRatioKeys] at hk
    rcases List.mem_cons.mp hk with rfl | hk'
    · exact hle
    · exact hall k hk'

/-- The code path and the specification wording of the aspect-ratio
computation agree whenever the rounding of `h*1000` is non-zero. -/
theorem calculate_aspect_eq_spec (w h : ℚ) (hw : 0 < w) (hh : 0 < h)
    (hr : pyRound (h * 1000) ≠ 0) :
    calculate_aspect_ratio w h = .ok (aspectRatioSpec w h) := by
  have hguard : ¬ (w ≤ 0 ∨ h ≤ 0) := by push_neg; exact ⟨hw, hh⟩
  have hwi : 0 ≤ pyRound (w * 1000) := pyRound_nonneg _ (by positivity)
  have hhi : 0 < pyRound (h * 1000) :=
    lt_of_le_of_ne (pyRound_nonneg _ (by positivity)) (Ne.symm hr)
  have hmk := mkFrac_eq_rat (pyRound (w * 1000)) (pyRound (h * 1000)) hwi hhi
  simp only [calculate_aspect_ratio, aspectRatioSpec, if_neg hguard, hmk]
  split_ifs with h100 hclose
  · rfl
  · rfl
  · obtain ⟨g, hg, _, _⟩ := limit_denominator_ok
      ⟨(((pyRound (w * 1000) : ℚ)) / ((pyRound (h * 1000) : ℚ))).num,
        ((((pyRound (w * 1000) : ℚ)) / ((pyRound (h * 1000) : ℚ))).den : ℤ)⟩
      (by simp only at h100 ⊢; omega)
    rw [hg]

/-- Evaluation of `round(300*1000)`. -/
theorem pyRound_300k : pyRound ((300 : ℚ) * 1000) = 300000 := by
  simp only [pyRound]; norm_num

/-- Evaluation of `round(200*1000)`. -/
theorem pyRound_200k : pyRound ((200 : ℚ) * 1000) = 200000 := by
  simp only [pyRound]; norm_num

/-- Evaluation of `Fraction(300000, 200000)`. -/
theorem mkFrac_300k_200k : mkFrac 300000 200000 = .ok ⟨3, 2⟩ := by
  simp only [mkFrac]
  rw [if_neg (by norm_num : (200000 : ℤ) ≠ 0)]
  rw [if_neg (by norm_num : ¬ (200000 : ℤ) < 0)]
  rw [show ((Int.gcd 300000 200000 : ℤ)) = 100000 from by norm_num]
  rw [Int.fdiv_eq_ediv _ (by norm_num), Int.fdiv_eq_ediv _ (by norm_num)]
  norm_num

/-- The worked example from the spec: a 300mm × 200mm panel reduces to
the ratio string `"3:2"`. -/
theorem aspect_300_200 : calculate_aspect_ratio 300 200 = .ok "3:2" := by
  simp only [calculate_aspect_ratio]
  rw [if_neg (by norm_num : ¬ ((300 : ℚ) ≤ 0 ∨ (200 : ℚ) ≤ 0))]
  rw [pyRound_300k, pyRound_200k, mkFrac_300k_200k]
  norm_num [ratioStr]
  rfl

/-- With `h = 1/10000` the rounding of `h*1000` is `0`, so the
`Fraction` constructor raises `ZeroDivisionError`. -/
theorem aspect_zero_division : calculate_aspect_ratio 1 (1/10000) =
    .error "ZeroDivisionError: Fraction(n, 0)" := by
  simp only [calculate_aspect_ratio]
  rw [if_neg (by norm_num : ¬ ((1 : ℚ) ≤ 0 ∨ (1 : ℚ)/10000 ≤ 0))]
  rw [show pyRound ((1 : ℚ)/10000 * 1000) = 0 from by simp only [pyRound]; norm_num]
  simp [mkFrac]

/-- A second zero-division input, with `h = 1/5000`. -/
theorem aspect_zero_division' : calculate_aspect_ratio 2 (1/5000) =
    .error "ZeroDivisionError: Fraction(n, 0)" := by
  simp only [calculate_aspect_ratio]
  rw [if_neg (by norm_num : ¬ ((2 : ℚ) ≤ 0 ∨ (1 : ℚ)/5000 ≤ 0))]
  rw [show pyRound ((1 : ℚ)/5000 * 1000) = 0 from by simp only [pyRound]; norm_num]
  simp [mkFrac]

/-- Sub-millimetre dimensions collapse to `"1:1"` even when the true
ratio is far from `1`. -/
theorem aspect_tiny_collapses : calculate_aspect_ratio (7/5000) (3/5000) = .ok "1:1" := by
  simp only [calculate_aspect_ratio]
  rw [if_neg (by norm_num : ¬ ((7 : ℚ)/5000 ≤ 0 ∨ (3 : ℚ)/5000 ≤ 0))]
  rw [show pyRound ((7 : ℚ)/5000 * 1000) = 1 from by simp only [pyRound]; norm_num]
  rw [show pyRound ((3 : ℚ)/5000 * 1000) = 1 from by simp only [pyRound]; norm_num]
  rw [show mkFrac 1 1 = .ok ⟨1, 1⟩ from by
    simp only [mkFrac]
    rw [if_neg (by norm_num : (1 : ℤ) ≠ 0), if_neg (by norm_num : ¬ (1 : ℤ) < 0)]
    norm_num]
  norm_num [ratioStr]
  rfl

/-- Claim C3 (amended).  For positive dimensions whose height rounding
is non-zero, `calculate_aspect_ratio` returns exactly the string the
specification describes: the reduced fraction when its denominator is
at most 100, else the nearest common-ratio table entry when within
0.1, else the fraction limited to denominator at most 20 (the
`pyMinByDist` pick really is nearest, and the fallback denominator
really is in `[1, 20]`); in particular `(300, 200)` yields `"3:2"`. -/
theorem aspect_ratio_description_holds :
    (∀ w h : ℚ, 0 < w → 0 < h → pyRound (h * 1000) ≠ 0 →
      calculate_aspect_ratio w h = .ok (aspectRatioSpec w h)) ∧
    (∀ r : ℚ, pyMinByDist r commonRatioKeys ∈ commonRatioKeys ∧
      ∀ k ∈ commonRatioKeys, |pyMinByDist r commonRatioKeys - r| ≤ |k - r|) ∧
    (∀ f : Frac, 20 < f.den →
      ∃ g, limit_denominator f 20 = .ok g ∧ 1 ≤ g.den ∧ g.den ≤ 20) ∧
    calculate_aspect_ratio 300 200 = .ok "3:2" :=
  ⟨calculate_aspect_eq_spec, pyMinByDist_nearest, limit_denominator_ok, aspect_300_200⟩

/-- Witness for C3: the amended description instantiated at the
concrete panel `300mm × 200mm`. -/
theorem aspect_ratio_description_holds_witness :
    calculate_aspect_ratio 300 200 = .ok (aspectRatioSpec 300 200) :=
  aspect_ratio_description_holds.1 300 200 (by norm_num) (by norm_num)
    (by rw [pyRound_200k]; norm_num)

/-- Counterexample to C3 as frozen: `(1, 1/10000)` has `w > 0`, `h > 0`
yet the computation raises `ZeroDivisionError` instead of returning a
ratio string, and `(7/5000, 3/5000)` returns `"1:1"` whose
reconstructed value `1` is not within the stated tolerance `0.1` of
`w/h = 7/3`. -/
theorem aspect_ratio_claim_cex :
    ((0 : ℚ) < 1 ∧ (0 : ℚ) < 1/10000 ∧
      calculate_aspect_ratio 1 (1/10000) = .error "ZeroDivisionError: Fraction(n, 0)") ∧
    (calculate_aspect_ratio (7/5000) (3/5000) = .ok "1:1" ∧
      ¬ |(1 : ℚ) - (7/5000 : ℚ) / (3/5000 : ℚ)| < 1/10) := by
  refine ⟨⟨by norm_num, by norm_num, aspect_zero_division⟩, aspect_tiny_collapses, ?_⟩
  rw [show (1 : ℚ) - (7/5000 : ℚ) / (3/5000 : ℚ) = -(4/3) from by norm_num]
  rw [abs_neg, abs_of_pos (by norm_num : (0 : ℚ) < 4/3)]
  norm_num

/-- Claim C10 (amended): non-positive dimensions short-circuit to
`"1:1"`, and the computation returns a string whenever
`round(h*1000)` is non-zero — but it is not total. -/
theorem aspect_ratio_guard_and_totality :
    (∀ w h : ℚ, w ≤ 0 ∨ h ≤ 0 → calculate_aspect_ratio w h = .ok "1:1") ∧
    (∀ w h : ℚ, 0 < w → 0 < h → pyRound (h * 1000) ≠ 0 →
      ∃ s, calculate_aspect_ratio w h = .ok s) := by
  constructor
  · intro w h hwh
    simp [calculate_aspect_ratio, if_pos hwh]
  · intro w h hw hh hr
    exact ⟨aspectRatioSpec w h, calculate_aspect_eq_spec w h hw hh hr⟩

/-- Witness for C10: the guard branch at `(0, 5)` and the total branch
at `(300, 200)`. -/
theorem aspect_ratio_guard_and_totality_witness :
    calculate_aspect_ratio 0 5 = .ok "1:1" ∧
    ∃ s, calculate_aspect_ratio 300 200 = .ok s :=
  ⟨aspect_ratio_guard_and_totality.1 0 5 (Or.inl le_rfl),
    aspect_ratio_guard_and_totality.2 300 200 (by norm_num) (by norm_num)
      (by rw [pyRound_200k]; norm_num)⟩

/-- Counterexample to C10 as frozen: the input `(2, 1/5000)` makes the
aspect-ratio computation raise `ZeroDivisionError`, so it is not total. -/
theorem aspect_ratio_total_cex :
    calculate_aspect_ratio 2 (1/5000) = .error "ZeroDivisionError: Fraction(n, 0)" :=
  aspect_zero_division'

/-- Claim C4 (amended): `validate_user_prompt` accepts exactly the
prompts whose whitespace-stripped form has length in `[3, 2000]` and
whose lowercased stripped form is not a blocklist entry; an error
message is returned exactly on rejection. -/
theorem validate_prompt_characterisation :
    ∀ l : List Char,
      ((validate_user_prompt l).1 = true ↔
        ¬((pyStrip l).length < 3 ∨ 2000 < (pyStrip l).length ∨
          pyLower (pyStrip l) ∈ vaguePrompts)) ∧
      ((validate_user_prompt l).2 = none ↔ (validate_user_prompt l).1 = true) := by
  intro l
  simp only [validate_user_prompt]
  split_ifs with h1 h2 h3 <;> simp_all

/-- Witness for C4: a sensible prompt is accepted with no error
message. -/
theorem validate_prompt_characterisation_witness :
    (validate_user_prompt ("blue geometric pattern with white lines".toList)).1 = true ∧
    (validate_user_prompt ("blue geometric pattern with white lines".toList)).2 = none := by
  have h := validate_prompt_characterisation ("blue geometric pattern with white lines".toList)
  have h1 : (validate_user_prompt ("blue geometric pattern with white lines".toList)).1 = true :=
    h.1.mpr (by decide)
  exact ⟨h1, h.2.mpr h1⟩

/-- Counterexample to C4 as frozen: `"LOGO"` has length 4 and is not
itself a blocklist entry, yet it is rejected (the code lowercases
before the comparison). -/
theorem validate_prompt_cex :
    (validate_user_prompt ("LOGO".toList)).1 = false ∧
    ¬(("LOGO".toList).length < 3 ∨ 2000 < ("LOGO".toList).length ∨
      "LOGO".toList ∈ vaguePrompts) := by
  decide

/-- The image-collection loop never yields more images than requested. -/
theorem collectValidImages_length_le (outcome : Nat → GenOutcome) :
    ∀ n, (collectValidImages outcome n).length ≤ n := by
  intro n
  induction n with
  | zero => simp [collectValidImages]
  | succ n ih =>
    simp only [collectValidImages, List.range_succ, List.foldl_append, List.foldl_cons,
      List.foldl_nil] at ih ⊢
    cases outcome n <;> simp <;> omega

/-- If every request in the batch fails (raises or returns `None`),
the collected list is empty. -/
theorem collectValidImages_all_fail (outcome : Nat → GenOutcome) :
    ∀ n, (∀ i, i < n → ∀ s, outcome i ≠ GenOutcome.image s) →
    collectValidImages outcome n = [] := by
  intro n
  induction n with
  | zero => intro _; simp [collectValidImages]
  | succ n ih =>
    intro h
    have hn := ih (fun i hi s => h i (Nat.lt_succ_of_lt hi) s)
    simp only [collectValidImages, List.range_succ, List.foldl_append, List.foldl_cons,
      List.foldl_nil] at hn ⊢
    rw [hn]
    cases hout : outcome n with
    | image s => exact absurd hout (h n (Nat.lt_succ_self n) s)
    | raises m => rfl
    | noImage => rfl

/-- Claim C5: an unconfigured client raises `GeminiError`; otherwise a
valid workflow returns the per-index successes, whose count is at most
the requested count, and a batch in which every request fails returns
the empty list rather than raising. -/
theorem gemini_batch_error_handling :
    (∀ (outcome : Nat → GenOutcome) (workflow : String) (n : Nat),
      generate_product_images_sync false outcome workflow n =
        .error (.geminiError "Gemini client not initialized for product images")) ∧
    (∀ (outcome : Nat → GenOutcome) (workflow : String) (n : Nat),
      workflow = "create" ∨ workflow = "edit" →
      generate_product_images_sync true outcome workflow n =
        .ok (collectValidImages outcome n) ∧
      (collectValidImages outcome n).length ≤ n) ∧
    (∀ (outcome : Nat → GenOutcome) (workflow : String) (n : Nat),
      workflow = "create" ∨ workflow = "edit" →
      (∀ i, i < n → ∀ s, outcome i ≠ GenOutcome.image s) →
      generate_product_images_sync true outcome workflow n = .ok []) := by
  refine ⟨fun outcome workflow n => by simp [generate_product_images_sync], ?_, ?_⟩
  · intro outcome workflow n hwf
    rcases hwf with rfl | rfl <;>
      exact ⟨by simp [generate_product_images_sync], collectValidImages_length_le outcome n⟩
  · intro outcome workflow n hwf hfail
    have hempty := collectValidImages_all_fail outcome n hfail
    rcases hwf with rfl | rfl <;> simp [generate_product_images_sync, hempty]

/-- Witness for C5: with both requests failing, the call returns
`ok []`; with the credential missing it raises. -/
theorem gemini_batch_error_handling_witness :
    generate_product_images_sync false (fun _ => GenOutcome.noImage) "create" 2 =
      .error (.geminiError "Gemini client not initialized for product images") ∧
    generate_product_images_sync true
      (fun i => if i = 0 then GenOutcome.raises "boom" else GenOutcome.noImage)
      "create" 2 = .ok [] :=
  ⟨gemini_batch_error_handling.1 _ _ _,
    gemini_batch_error_handling.2.2 _ _ 2 (Or.inl rfl)
      (by intro i hi s; interval_cases i <;> simp)⟩

/-- The camera-angle description always sits inside the enhanced
prompt, in both prompt branches. -/
theorem angleDescription_infix (p : List Char) (hasRef : Bool) (i : Nat) :
    angleDescription i <:+: enhancedPrompt p hasRef i := by
  cases hasRef with
  | false =>
    refine ⟨"Create a professional studio product photograph of ".toList ++ p ++
        ", shot from a ".toList,
      ". Photograph the product on a pure white background with professional studio lighting that creates soft, subtle shadows. Use sharp focus to capture clear, well-defined edges. Center the product in the frame and fill the frame while ensuring the entire product is visible - nothing should be cropped or cut off. The design should be consistent and suitable for viewing from multiple camera angles. Avoid any text overlays, watermarks, or distracting elements.".toList, ?_⟩
    simp [enhancedPrompt, List.append_assoc]
  | true =>
    refine ⟨"Create a professional product photograph of the exact same product shown in the reference image, photographed from a ".toList,
      ". ".toList ++ p ++ "

".toList ++
        "Match the reference image precisely in terms of design, colors, materials, and all details. Photograph the product on a clean white studio background with professional lighting that creates soft shadows. Ensure sharp focus throughout with well-defined edges. Center the product in the frame and fill the frame while keeping the entire product visible - no parts should be cropped or cut off. Avoid any text, watermarks, or distracting elements.".toList, ?_⟩
    simp [enhancedPrompt, List.append_assoc]

/-- Claim C6 (amended): for positions `0`, `1`, `2` the request embeds
the fixed angle at that index; positions `3` and beyond embed the
fallback text `"alternate angle"` instead. -/
theorem camera_angle_indexing :
    (∀ (p : List Char) (hasRef : Bool) (i : Nat) (h : i < camAngles.length),
      angleDescription i = camAngles.get ⟨i, h⟩ ∧
      camAngles.get ⟨i, h⟩ <:+: enhancedPrompt p hasRef i) ∧
    (∀ (p : List Char) (hasRef : Bool) (i : Nat), camAngles.length ≤ i →
      angleDescription i = "alternate angle".toList ∧
      "alternate angle".toList <:+: enhancedPrompt p hasRef i) := by
  constructor
  · intro p hasRef i h
    have hd : angleDescription i = camAngles.get ⟨i, h⟩ := by
      simp [angleDescription, h]
    exact ⟨hd, hd ▸ angleDescription_infix p hasRef i⟩
  · intro p hasRef i h
    have hlt : ¬ i < camAngles.length := not_lt.mpr h
    have hd : angleDescription i = "alternate angle".toList := by
      simp [angleDescription, hlt]
    exact ⟨hd, hd ▸ angleDescription_infix p hasRef i⟩

/-- Witness for C6: position `1` embeds the 45-degree angle text. -/
theorem camera_angle_indexing_witness :
    angleDescription 1 = camAngles.get ⟨1, by decide⟩ ∧
    camAngles.get ⟨1, by decide⟩ <:+: enhancedPrompt ("a mug".toList) true 1 :=
  camera_angle_indexing.1 ("a mug".toList) true 1 (by decide)

/-- Counterexample to C6 as frozen: at batch position `3` (reachable,
since up to 6 images may be requested) the request embeds none of the
three fixed angle descriptions, only the fallback text. -/
theorem camera_angle_cex :
    angleDescription 3 = "alternate angle".toList ∧
    angleDescription 3 ∉ camAngles ∧
    (∀ a ∈ camAngles, ¬ a <:+: enhancedPrompt ("a toy car".toList) false 3) ∧
    "alternate angle".toList <:+: enhancedPrompt ("a toy car".toList) false 3 := by
  refine ⟨by decide, by decide, by decide, ?_⟩
  have h := angleDescription_infix ("a toy car".toList) false 3
  rwa [show angleDescription 3 = "alternate angle".toList from by decide] at h

/-- A color word found by the boundary-aware search is one of the
twelve alternatives and occurs in the text as a substring. -/
theorem findColorWord_sound :
    ∀ (l : List Char) (prev : Option Char) (w : List Char),
    findColorWord prev l = some w → w ∈ colorWords ∧ containsSub w l = true := by
  intro l
  induction l with
  | nil => intro prev w h; simp [findColorWord] at h
  | cons c rest ih =>
    intro prev w h
    simp only [findColorWord] at h
    cases hf : colorWords.find? (fun w2 => matchWordAt prev (c :: rest) w2) with
    | some w2 =>
      rw [hf] at h
      cases h
      have hmem := List.mem_of_find?_eq_some hf
      have hpred := List.find?_some hf
      simp only [matchWordAt, Bool.and_eq_true] at hpred
      refine ⟨hmem, ?_⟩
      simp [containsSub, hpred.1.1]
    | none =>
      rw [hf] at h
      obtain ⟨hmw, hcs⟩ := ih (some c) w h
      exact ⟨hmw, by simp [containsSub, hcs]⟩

/-- A prompt with an extractable color also trips the
`is_simple_color` keyword check (every color word is a keyword). -/
theorem extractColor_isSimple (l w : List Char) (h : extractColor l = some w) :
    isSimpleColor l = true := by
  obtain ⟨hmem, hsub⟩ := findColorWord_sound l none w h
  simp only [isSimpleColor, List.any_eq_true]
  exact ⟨w, List.mem_append_left _ hmem, hsub⟩

/-- Claim C8 (amended): a whole-word color match yields the rigid
flat-solid-color prompt with that color substituted; a keyword hit
without an extractable color yields the generic solid-color prompt;
otherwise the creative-design prompt is used. -/
theorem panel_prompt_color_branches :
    ∀ (panel_id user_prompt package_type : List Char) (width height : Option Int),
      (∀ c, extractColor (pyLower user_prompt) = some c →
        c ∈ colorWords ∧ containsSub c (pyLower user_prompt) = true ∧
        build_panel_prompt panel_id user_prompt package_type width height =
          solidColorPrompt c (getPanelContext panel_id package_type)
            (dimensionsText width height)) ∧
      (extractColor (pyLower user_prompt) = none →
        isSimpleColor (pyLower user_prompt) = true →
        build_panel_prompt panel_id user_prompt package_type width height =
          genericSolidPrompt (getPanelContext panel_id package_type)
            (dimensionsText width height) user_prompt) ∧
      (isSimpleColor (pyLower user_prompt) = false →
        build_panel_prompt panel_id user_prompt package_type width height =
          creativeDesignPrompt package_type (getPanelContext panel_id package_type)
            (dimensionsText width height) user_prompt) := by
  intro pid up pt w h
  refine ⟨?_, ?_, ?_⟩
  · intro c hc
    obtain ⟨hmem, hsub⟩ := findColorWord_sound _ none c hc
    have hsimple := extractColor_isSimple _ c hc
    exact ⟨hmem, hsub, by simp [build_panel_prompt, hsimple, hc]⟩
  · intro hnone hsimple
    simp [build_panel_prompt, hsimple, hnone]
  · intro hfalse
    simp [build_panel_prompt, hfalse]

/-- Witness for C8: `"matte black finish"` contains the color word
`black` and receives the rigid solid-color prompt for it. -/
theorem panel_prompt_color_branches_witness :
    extractColor (pyLower ("matte black finish".toList)) = some ("black".toList) ∧
    build_panel_prompt ("front".toList) ("matte black finish".toList) ("box".toList)
        (some 100) (some 150) =
      solidColorPrompt ("black".toList)
        (getPanelContext ("front".toList) ("box".toList))
        (dimensionsText (some 100) (some 150)) := by
  have hx : extractColor (pyLower ("matte black finish".toList)) =
      some ("black".toList) := by decide
  exact ⟨hx, ((panel_prompt_color_branches ("front".toList)
    ("matte black finish".toList) ("box".toList) (some 100) (some 150)).1
    ("black".toList) hx).2.2⟩

/-- Counterexample to C8 as frozen: `"make it sparkly"` contains no
color word, yet the returned prompt is the generic solid-color
instruction, not the creative-design instruction the claim promises. -/
theorem panel_prompt_claim_cex :
    (∀ c ∈ colorWords, containsSub c (pyLower ("make it sparkly".toList)) = false) ∧
    build_panel_prompt ("front".toList) ("make it sparkly".toList) ("box".toList)
        (some 100) (some 150) =
      genericSolidPrompt (getPanelContext ("front".toList) ("box".toList))
        (dimensionsText (some 100) (some 150)) ("make it sparkly".toList) ∧
    build_panel_prompt ("front".toList) ("make it sparkly".toList) ("box".toList)
        (some 100) (some 150) ≠
      creativeDesignPrompt ("box".toList) (getPanelContext ("front".toList) ("box".toList))
        (dimensionsText (some 100) (some 150)) ("make it sparkly".toList) := by
  decide

/-- With an in-progress flag and a live tracked task, the busy gate
raises HTTP 409. -/
theorem ensure_busy_active (state : ProductState) (tasks : List Bool)
    (h1 : state.in_progress = true) (h2 : hasActiveTasks tasks = true) :
    ensure_not_busy state tasks = .error (409, "Generation already running") := by
  simp [ensure_not_busy, autoRecoverIfNeeded, h1, h2]

/-- With an in-progress flag but no live tracked task, the busy gate
auto-recovers and passes. -/
theorem ensure_busy_inactive (state : ProductState) (tasks : List Bool)
    (h1 : state.in_progress = true) (h2 : hasActiveTasks tasks = false) :
    ensure_not_busy state tasks = .ok ((autoRecoverIfNeeded state tasks).2, true) := by
  simp [ensure_not_busy, autoRecoverIfNeeded, h1, h2]

/-- Claim C1 (amended): while `in_progress` is set and a tracked
background task is alive, create / edit / trellis-only all return
HTTP 409 with nothing saved and the world unchanged; with no alive
task the stale flag is recovered (saved with `in_progress = false`
and status `idle`) and the new run is accepted — except that edit
still returns HTTP 400 when, outside demo-mock mode, no base product
exists. -/
theorem busy_gate_and_recovery :
    (∀ (w : RouterWorld) (p : String) (n : Nat) (imgs : List String) (md : String),
      w.state.in_progress = true → hasActiveTasks w.tasks = true →
      start_create w p n = ⟨.httpError 409 "Generation already running", w, [], []⟩ ∧
      start_edit w p = ⟨.httpError 409 "Generation already running", w, [], []⟩ ∧
      start_trellis_only w p imgs md =
        ⟨.httpError 409 "Generation already running", w, [], []⟩) ∧
    (∀ (w : RouterWorld) (p : String) (n : Nat) (imgs : List String) (md : String),
      w.state.in_progress = true → hasActiveTasks w.tasks = false →
      (autoRecoverIfNeeded w.state w.tasks).2.in_progress = false ∧
      (autoRecoverIfNeeded w.state w.tasks).2.status = "idle" ∧
      (start_create w p n).stateSaves.head? =
        some ((autoRecoverIfNeeded w.state w.tasks).2) ∧
      (start_create w p n).statusSaves.head? = some recoveredStatusPayload ∧
      (∃ payload, (start_create w p n).resp = .ok payload) ∧
      (∃ payload, (start_trellis_only w p imgs md).resp = .ok payload) ∧
      (w.demoMock = true ∨ (w.state.prompt ≠ "" ∧ w.state.images ≠ []) →
        ∃ payload, (start_edit w p).resp = .ok payload)) := by
  constructor
  · intro w p n imgs md h1 h2
    have he := ensure_busy_active w.state w.tasks h1 h2
    exact ⟨by simp [start_create, he], by simp [start_edit, he],
      by simp [start_trellis_only, he]⟩
  · intro w p n imgs md h1 h2
    have he := ensure_busy_inactive w.state w.tasks h1 h2
    refine ⟨by simp [autoRecoverIfNeeded, h1, h2], by simp [autoRecoverIfNeeded, h1, h2],
      by simp [start_create, he], by simp [start_create, he],
      ⟨⟨"pending", 0, "Preparing product generation", none, none⟩,
        by simp [start_create, he]⟩,
      ⟨⟨"pending", 0, "Preparing 3D generation from pre-generated images", none, none⟩,
        by simp [start_trellis_only, he]⟩, ?_⟩
    intro hbase
    refine ⟨⟨"pending", 0, "Preparing edit request", none, none⟩, ?_⟩
    rcases hbase with hdm | ⟨hp, hi⟩
    · simp [start_edit, he, hdm]
    · have hst : (autoRecoverIfNeeded w.state w.tasks).2.prompt = w.state.prompt := by
        simp [autoRecoverIfNeeded, h1, h2]
      have hsi : (autoRecoverIfNeeded w.state w.tasks).2.images = w.state.images := by
        simp [autoRecoverIfNeeded, h1, h2]
      simp [start_edit, he, hst, hsi, hp, hi]

/-- Witness for C1: a stale busy flag with every tracked task done is
recovered and the create run is accepted; with a live task the same
world is refused with HTTP 409. -/
theorem busy_gate_and_recovery_witness :
    (let w : RouterWorld :=
      ⟨⟨"p", "p", "create", "generating_images", "m", true, some 3, 1, ["img"],
        none, [], none⟩, [true, true], false, 9⟩
     (autoRecoverIfNeeded w.state w.tasks).2.in_progress = false ∧
     (autoRecoverIfNeeded w.state w.tasks).2.status = "idle" ∧
     (start_create w "a hat" 2).stateSaves.head? =
       some ((autoRecoverIfNeeded w.state w.tasks).2) ∧
     (start_create w "a hat" 2).statusSaves.head? = some recoveredStatusPayload ∧
     (∃ payload, (start_create w "a hat" 2).resp = .ok payload) ∧
     (∃ payload, (start_trellis_only w "a hat" ["i"] "create").resp = .ok payload) ∧
     (w.demoMock = true ∨ (w.state.prompt ≠ "" ∧ w.state.images ≠ []) →
       ∃ payload, (start_edit w "a hat").resp = .ok payload)) ∧
    (let w : RouterWorld :=
      ⟨⟨"p", "p", "create", "generating_images", "m", true, some 3, 1, ["img"],
        none, [], none⟩, [true, false], false, 9⟩
     start_create w "a hat" 2 =
       ⟨.httpError 409 "Generation already running", w, [], []⟩) :=
  ⟨busy_gate_and_recovery.2 _ "a hat" 2 ["i"] "create" rfl (by decide),
    (busy_gate_and_recovery.1 _ "a hat" 2 ["i"] "create" rfl (by decide)).1⟩

/-- Counterexample to C1 as frozen: a stale busy flag over an empty
base product, in non-mock mode.  The flag is recovered (the recovered
state is saved with `in_progress = false`), but the edit run is then
rejected with HTTP 400, not accepted. -/
theorem busy_gate_cex :
    (let w : RouterWorld :=
      ⟨⟨"", "", "idle", "generating_images", "m", true, some 5, 1, [], none, [],
        none⟩, [], false, 7⟩
     w.state.in_progress = true ∧
     hasActiveTasks w.tasks = false ∧
     (start_edit w "add a handle").resp =
       .httpError 400 "No base product available to edit" ∧
     (start_edit w "add a handle").stateSaves.map ProductState.in_progress = [false]) := by
  decide

/-- Claim C2: rewind returns HTTP 409 while a run is in progress,
HTTP 400 for an index outside `[0, len(iterations))`, and otherwise
truncates the history to length `i+1`, restores images and mesh
output from iteration `i`, and resets the state to idle /
not-in-progress. -/
theorem rewind_semantics :
    ∀ (st : ProductState) (i : Int),
      (st.in_progress = true →
        rewind_product st i = .error (409, "Cannot rewind while generation is running")) ∧
      (st.in_progress = false → (i < 0 ∨ (st.iterations.length : Int) ≤ i) →
        rewind_product st i = .error (400, "Invalid iteration index")) ∧
      (st.in_progress = false → 0 ≤ i → i < (st.iterations.length : Int) →
        ∀ h : i.toNat < st.iterations.length,
        ∃ st2 payload, rewind_product st i = .ok (st2, payload) ∧
          st2.iterations = st.iterations.take (i.toNat + 1) ∧
          st2.iterations.length = i.toNat + 1 ∧
          st2.images = (st.iterations.get ⟨i.toNat, h⟩).images ∧
          st2.trellis_output = (st.iterations.get ⟨i.toNat, h⟩).trellis_output ∧
          st2.status = "idle" ∧ st2.in_progress = false ∧
          payload.status = "idle" ∧ payload.progress = 0) := by
  intro st i
  refine ⟨?_, ?_, ?_⟩
  · intro h
    simp [rewind_product, h]
  · intro h hidx
    simp [rewind_product, h, hidx]
  · intro h h0 hlen htn
    have hnot : ¬(i < 0 ∨ (st.iterations.length : Int) ≤ i) := by push_neg; omega
    have hget : st.iterations[i.toNat]? = some (st.iterations.get ⟨i.toNat, htn⟩) := by
      rw [List.getElem?_eq_getElem htn]
      rfl
    refine ⟨{ st with
        iterations := st.iterations.take (i.toNat + 1)
        images := (st.iterations.get ⟨i.toNat, htn⟩).images
        trellis_output := (st.iterations.get ⟨i.toNat, htn⟩).trellis_output
        latest_instruction := (st.iterations.get ⟨i.toNat, htn⟩).prompt
        prompt := if (st.iterations.get ⟨i.toNat, htn⟩).type = "create" then
            (st.iterations.get ⟨i.toNat, htn⟩).prompt
          else st.prompt
        mode := (st.iterations.get ⟨i.toNat, htn⟩).type
        status := "idle"
        message := "Rewound to previous version"
        in_progress := false
        last_error := none },
      ⟨"idle", 0, "Rewound to previous version",
        ((st.iterations.get ⟨i.toNat, htn⟩).trellis_output.map TrellisArtifacts.model_file),
        (match (st.iterations.get ⟨i.toNat, htn⟩).trellis_output with
          | some t => t.no_background_images.head?
          | none => none)⟩,
      ?_, rfl, ?_, rfl, rfl, rfl, rfl, rfl, rfl⟩
    · simp [rewind_product, h, hnot, hget]
    · simp only [List.length_take]
      omega

/-- Witness for C2: rewinding a two-iteration history to index 0. -/
theorem rewind_semantics_witness :
    (let it0 : ProductIteration :=
      ⟨"it0", "create", "a hat", ["img0"], some ⟨"https://m/0.glb", ["nb0"]⟩, 1, 30, ""⟩
     let it1 : ProductIteration :=
      ⟨"it1", "edit", "wider brim", ["img1"], some ⟨"https://m/1.glb", ["nb1"]⟩, 2, 20, ""⟩
     let st : ProductState :=
      ⟨"a hat", "wider brim", "idle", "complete", "done", false, none, 1,
        ["img1"], some ⟨"https://m/1.glb", ["nb1"]⟩, [it0, it1], none⟩
     ∃ st2 payload, rewind_product st 0 = .ok (st2, payload) ∧
       st2.iterations = st.iterations.take 1 ∧
       st2.iterations.length = 1 ∧
       st2.images = (st.iterations.get ⟨0, by decide⟩).images ∧
       st2.trellis_output = (st.iterations.get ⟨0, by decide⟩).trellis_output ∧
       st2.status = "idle" ∧ st2.in_progress = false ∧
       payload.status = "idle" ∧ payload.progress = 0) := by
  intro it0 it1 st
  exact (rewind_semantics st 0).2.2 rfl (by decide) (by decide) (by decide)

/-- Claim C7 (amended): every demo-mock create run starts at
`pending` and has non-decreasing progress; whenever the run does not
die on an uncaught exception it ends in exactly one of
`complete`/`error`.  With configured fixtures whose `preview_images`
key is absent or non-empty it passes through `generating_images` and
then `generating_model` in order and ends in `complete`; with
unusable fixtures it jumps straight from `pending` to `error`
without those phases; and with a configured `model_url` but a
present-and-empty `preview_images` list the run raises `IndexError`
after `generating_model` at 85%, so `complete` is never emitted. -/
theorem mock_create_status_contract :
    ∀ fx : MockFixtureEntry,
      (demoCreateRun fx).1.head? =
        some ⟨"pending", 0, "Preparing product generation", none, none⟩ ∧
      (demoCreateRun fx).1.Chain' (fun a b => a.progress ≤ b.progress) ∧
      ((demoCreateRun fx).2 = none →
        (demoCreateRun fx).1.getLast?.map ProductStatus.status = some "complete" ∨
        (demoCreateRun fx).1.getLast?.map ProductStatus.status = some "error") ∧
      (fixtureConfigured fx = true → fx.preview_images ≠ some [] →
        (demoCreateRun fx).1.map ProductStatus.status =
          ["pending", "generating_images", "generating_images", "generating_model",
            "generating_model", "generating_model", "complete"] ∧
        (demoCreateRun fx).2 = none) ∧
      (fixtureConfigured fx = false →
        (demoCreateRun fx).1.map ProductStatus.status = ["pending", "error"] ∧
        (demoCreateRun fx).2 = none) ∧
      (fixtureConfigured fx = true → fx.preview_images = some [] →
        (demoCreateRun fx).1.map ProductStatus.status =
          ["pending", "generating_images", "generating_images", "generating_model",
            "generating_model", "generating_model"] ∧
        (demoCreateRun fx).2 = some "IndexError: list index out of range") := by
  intro fx
  by_cases hc : fixtureConfigured fx
  · cases hp : fx.preview_images with
    | none =>
      simp [demoCreateRun, mockCreateStatusUpdates, hc, hp, List.chain'_cons]
    | some l =>
      cases l with
      | nil => simp [demoCreateRun, mockCreateStatusUpdates, hc, hp, List.chain'_cons]
      | cons p rest =>
        simp [demoCreateRun, mockCreateStatusUpdates, hc, hp, List.chain'_cons]
  · simp [demoCreateRun, mockCreateStatusUpdates, hc, List.chain'_cons]

/-- Witness for C7: a configured fixture with a non-empty preview
list produces the full pending → images → model → complete sequence
and the task does not die. -/
theorem mock_create_status_contract_witness :
    (demoCreateRun ⟨some "https://fal.media/files/model.glb", some ["p.png"], []⟩).1.map
        ProductStatus.status =
      ["pending", "generating_images", "generating_images", "generating_model",
        "generating_model", "generating_model", "complete"] ∧
    (demoCreateRun ⟨some "https://fal.media/files/model.glb", some ["p.png"], []⟩).2 =
      none :=
  (mock_create_status_contract
    ⟨some "https://fal.media/files/model.glb", some ["p.png"], []⟩).2.2.2.1
    (by decide) (by decide)

/-- Counterexample to C7 as frozen: with unusable fixtures the
demo-mock create run never emits `generating_images`, so it does not
pass through the claimed phases. -/
theorem mock_create_claim_cex :
    (demoCreateRun ⟨none, none, []⟩).1.map ProductStatus.status = ["pending", "error"] ∧
    ∀ s ∈ (demoCreateRun ⟨none, none, []⟩).1, s.status ≠ "generating_images" := by
  decide

/-- Claim C9: `_render_jpg` cannot raise — every environment produces
an artifact at the output path: full rasterisation when it succeeds,
the placeholder for empty geometry, the 2D thumbnail when pyglet is
missing, and the `"Render failed"` placeholder on any other failure. -/
theorem render_jpg_never_fails :
    (∀ env : RenderEnv, ∃ art, render_jpg env = .ok art) ∧
    (∀ env : RenderEnv, env.geometryCount = 0 →
      render_jpg env = .ok (.placeholder "No geometry")) ∧
    (∀ (env : RenderEnv) (n : Nat), 0 < env.geometryCount → env.saveImage = .ok n →
      0 < n → env.convertFails = false → render_jpg env = .ok .rendered) ∧
    (∀ env : RenderEnv, 0 < env.geometryCount → env.saveImage = .importError true →
      env.thumbnailFails = false → render_jpg env = .ok .thumbnail) ∧
    (∀ env : RenderEnv, 0 < env.geometryCount → env.saveImage = .otherError →
      render_jpg env = .ok (.placeholder "Render failed")) := by
  refine ⟨?_, ?_, ?_, ?_, ?_⟩
  · intro env
    cases hb : renderBody env with
    | ok art => exact ⟨art, by simp [render_jpg, hb]⟩
    | error e => exact ⟨.placeholder "Render failed", by simp [render_jpg, hb]⟩
  · intro env hg
    simp [render_jpg, renderBody, hg]
  · intro env n hg hs hn hc
    have hg0 : ¬ env.geometryCount = 0 := by omega
    have hi : renderInnerTry env = .ok (some .rendered) := by
      simp [renderInnerTry, hs, hn, hc]
    simp [render_jpg, renderBody, hg0, hi]
  · intro env hg hs ht
    have hg0 : ¬ env.geometryCount = 0 := by omega
    have hi : renderInnerTry env = .error (.importError true) := by
      simp [renderInnerTry, hs]
    simp [render_jpg, renderBody, hg0, hi, thumbnailStep, ht]
  · intro env hg hs
    have hg0 : ¬ env.geometryCount = 0 := by omega
    have hi : renderInnerTry env = .error (.other "save_image failed") := by
      simp [renderInnerTry, hs]
    simp [render_jpg, renderBody, hg0, hi]

/-- Witness for C9: each degradation path at a concrete environment. -/
theorem render_jpg_never_fails_witness :
    render_jpg ⟨0, .otherError, false, false⟩ = .ok (.placeholder "No geometry") ∧
    render_jpg ⟨2, .ok 10, false, false⟩ = .ok .rendered ∧
    render_jpg ⟨2, .importError true, false, false⟩ = .ok .thumbnail ∧
    render_jpg ⟨2, .otherError, false, false⟩ = .ok (.placeholder "Render failed") :=
  ⟨render_jpg_never_fails.2.1 _ rfl,
    render_jpg_never_fails.2.2.1 _ 10 (by norm_num) rfl (by norm_num) rfl,
    render_jpg_never_fails.2.2.2.1 _ (by norm_num) rfl rfl,
    render_jpg_never_fails.2.2.2.2 _ (by norm_num) rfl⟩

end Vril
